import Mathlib

/-!
Verification of the AviaConnector TypeScript SDK core: the envelope codec
(parseMessage), the dispatch engine (handleMessage), the connection manager
(connection and close transport events), the simulator-status merge, the
outbound request builders, and the status-code taxonomy (statusCodes.ts).

JavaScript runtime values that flow through the SDK are modelled by the
inductive type Json below; JavaScript primitives that the code relies on
(JSON.parse, JSON.stringify, parseInt, truthiness, nullish coalescing,
property access, string coercion) are modelled by executable Lean functions.
An absent value (undefined) is modelled by Option.none where it matters.
-/

/-- JSON values as produced by a successful JSON.parse, and as passed to
JSON.stringify. Numbers are modelled as integers: no claim involves
fractional numbers. Object fields keep insertion order. -/
inductive Json where
  | null : Json
  | bool : Bool → Json
  | num : Int → Json
  | str : String → Json
  | arr : List Json → Json
  | obj : List (String × Json) → Json

/-- Last-wins lookup of a key in an object field list, matching the
JavaScript semantics that a later duplicate key shadows an earlier one. -/
def lookupLast : List (String × Json) → String → Option Json
  | [], _ => none
  | (k2, v) :: rest, k =>
    match lookupLast rest k with
    | some r => some r
    | none => if k2 = k then some v else none

/-- JavaScript property access j[k] on a parsed JSON value: an object yields
its field (or undefined, i.e. none, when absent); every other value yields
undefined, since parsed JSON primitives and arrays carry no such fields. -/
def getProp (j : Json) (k : String) : Option Json :=
  match j with
  | .obj fields => lookupLast fields k
  | _ => none

/-- JavaScript truthiness of a parsed JSON value: null, false, 0 and the
empty string are falsy; arrays and objects are always truthy. -/
def jsTruthy : Json → Bool
  | .null => false
  | .bool b => b
  | .num n => n ≠ 0
  | .str s => s ≠ ""
  | .arr _ => true
  | .obj _ => true

/-- JavaScript falsiness of a possibly-undefined value, as tested by the
guard clauses of handleMessage: undefined is falsy. -/
def jsFalsyOpt : Option Json → Bool
  | none => true
  | some v => ! jsTruthy v

/-- JavaScript nullish coalescing a ?? b on a possibly-undefined left
operand: undefined and null fall through to b, every other value wins. -/
def jsCoalesce (a : Option Json) (b : Option Json) : Option Json :=
  match a with
  | none => b
  | some .null => b
  | some v => some v

mutual

/-- JavaScript string coercion of a parsed JSON value, as performed by the
Error constructor: arrays join their coerced elements with commas, objects
render as the object placeholder text. -/
def jsToString : Json → String
  | .null => "null"
  | .bool b => cond b "true" "false"
  | .num n => toString n
  | .str s => s
  | .arr xs => jsToStringList xs
  | .obj _ => "[object Object]"

/-- Array.prototype.toString element rendering: null elements render empty,
elements are separated by commas. -/
def jsToStringList : List Json → String
  | [] => ""
  | [Json.null] => ""
  | [x] => jsToString x
  | Json.null :: xs => "," ++ jsToStringList xs
  | x :: xs => jsToString x ++ "," ++ jsToStringList xs

end

/-- Status code categories, from the StatusCodeCategory enum of
statusCodes.ts: SUCCESS is the 2xx band, CLIENT_ERROR the 4xx band,
SERVER_ERROR the 5xx band, SIMULATOR the 6xx band, CUSTOM the 9xx band. -/
inductive StatusCodeCategory where
  | success : StatusCodeCategory
  | clientError : StatusCodeCategory
  | serverError : StatusCodeCategory
  | simulator : StatusCodeCategory
  | custom : StatusCodeCategory
deriving DecidableEq

/-- The values of the StatusCode enum of statusCodes.ts, in declaration
order, as enumerated by Object.values. -/
def statusCodeValues : List String :=
  ["200", "201", "202",
   "400", "401", "403", "404", "405", "408", "409",
   "500", "501", "502", "503", "504",
   "600", "601", "602", "603", "604", "605", "606",
   "900", "901", "902", "903", "904", "905", "906", "907", "908", "909"]

/-- Type guard isValidStatusCode of statusCodes.ts: membership of the code
string in the enumerated StatusCode values. -/
def isValidStatusCode (code : String) : Bool :=
  statusCodeValues.contains code

/-- Model of the JavaScript whitespace skipped by parseInt. -/
def isJsWhitespace (c : Char) : Bool :=
  c = ' ' ∨ c = '\t' ∨ c = '\n' ∨ c = '\r' ∨ c = Char.ofNat 11 ∨ c = Char.ofNat 12

/-- Decimal digit test. -/
def isDigitChar (c : Char) : Bool :=
  '0' ≤ c ∧ c ≤ '9'

/-- Value of a list of decimal digits. -/
def digitsToNat (ds : List Char) : Nat :=
  ds.foldl (fun a c => a * 10 + (c.toNat - 48)) 0

/-- Model of the JavaScript parseInt(code, 10) call used by
getStatusCodeCategory: skip leading whitespace, accept an optional sign,
read the maximal run of decimal digits, and yield NaN (modelled as none)
when that run is empty. -/
def parseInt10 (s : String) : Option Int :=
  let cs := s.toList.dropWhile isJsWhitespace
  let signed : Bool × List Char :=
    match cs with
    | '-' :: rest => (true, rest)
    | '+' :: rest => (false, rest)
    | _ => (false, cs)
  let ds := signed.2.takeWhile isDigitChar
  if ds.isEmpty then none
  else
    let n : Int := Int.ofNat (digitsToNat ds)
    some (if signed.1 then -n else n)

/-- getStatusCodeCategory of statusCodes.ts: parse the code with
parseInt(code, 10), return null on NaN, else classify by the five
half-open numeric bands. -/
def getStatusCodeCategory (code : String) : Option StatusCodeCategory :=
  match parseInt10 code with
  | none => none
  | some codeNum =>
    if 200 ≤ codeNum ∧ codeNum < 300 then some .success
    else if 400 ≤ codeNum ∧ codeNum < 500 then some .clientError
    else if 500 ≤ codeNum ∧ codeNum < 600 then some .serverError
    else if 600 ≤ codeNum ∧ codeNum < 700 then some .simulator
    else if 900 ≤ codeNum ∧ codeNum < 1000 then some .custom
    else none

/-- isSimulatorStatusCode of statusCodes.ts: category equals SIMULATOR. -/
def isSimulatorStatusCode (code : String) : Bool :=
  getStatusCodeCategory code = some .simulator

example : getStatusCodeCategory "404" = some .clientError := by decide
example : getStatusCodeCategory "650" = some .simulator := by decide
example : getStatusCodeCategory "150" = none := by decide
example : getStatusCodeCategory "abc" = none := by decide
example : isValidStatusCode "650" = false := by decide

/-- Opening brace character, kept as a named constant. -/
def lbraceChar : Char := Char.ofNat 123

/-- Closing brace character, kept as a named constant. -/
def rbraceChar : Char := Char.ofNat 125

/-- JSON whitespace accepted between tokens by JSON.parse. -/
def isJsonWs (c : Char) : Bool :=
  c = ' ' ∨ c = '\t' ∨ c = '\n' ∨ c = '\r'

/-- Skip JSON whitespace. -/
def skipWs (cs : List Char) : List Char :=
  cs.dropWhile isJsonWs

/-- Decoding of a single-character JSON string escape. Unicode escapes are
not modelled; no value in this development needs one. -/
def jsonUnescape (e : Char) : Option Char :=
  if e = '"' then some '"'
  else if e = '\\' then some '\\'
  else if e = '/' then some '/'
  else if e = 'n' then some '\n'
  else if e = 't' then some '\t'
  else if e = 'r' then some '\r'
  else none

/-- Parse the body of a JSON string literal after its opening quote,
returning the decoded characters and the remaining input. -/
def pStringChars : Nat → List Char → Option (List Char × List Char)
  | 0, _ => none
  | _ + 1, [] => none
  | fuel + 1, c :: rest =>
    if c = '"' then some ([], rest)
    else if c = '\\' then
      match rest with
      | [] => none
      | e :: r2 =>
        match jsonUnescape e, pStringChars fuel r2 with
        | some ec, some (s, r) => some (ec :: s, r)
        | _, _ => none
    else
      match pStringChars fuel rest with
      | some (s, r) => some (c :: s, r)
      | none => none

/-- Parse a JSON number. Only integer numbers are modelled; no value in
this development carries a fraction or an exponent. -/
def pNumber (cs : List Char) : Option (Json × List Char) :=
  let signed : Bool × List Char :=
    match cs with
    | '-' :: r => (true, r)
    | _ => (false, cs)
  let ds := signed.2.takeWhile isDigitChar
  let rest := signed.2.dropWhile isDigitChar
  if ds.isEmpty then none
  else
    let n : Int := Int.ofNat (digitsToNat ds)
    some (.num (if signed.1 then -n else n), rest)

mutual

/-- Fuel-indexed JSON value parser, the core of the JSON.parse model. -/
def pVal : Nat → List Char → Option (Json × List Char)
  | 0, _ => none
  | fuel + 1, cs =>
    match skipWs cs with
    | [] => none
    | c :: rest =>
      if c = 'n' then
        match rest with
        | 'u' :: 'l' :: 'l' :: r => some (.null, r)
        | _ => none
      else if c = 't' then
        match rest with
        | 'r' :: 'u' :: 'e' :: r => some (.bool true, r)
        | _ => none
      else if c = 'f' then
        match rest with
        | 'a' :: 'l' :: 's' :: 'e' :: r => some (.bool false, r)
        | _ => none
      else if c = '"' then
        match pStringChars (rest.length + 1) rest with
        | some (s, r) => some (.str (String.mk s), r)
        | none => none
      else if c = lbraceChar then pObjBody fuel rest
      else if c = '[' then pArrBody fuel rest
      else pNumber (c :: rest)

/-- Parse the members of a JSON object after its opening brace. -/
def pObjBody : Nat → List Char → Option (Json × List Char)
  | 0, _ => none
  | fuel + 1, cs =>
    match skipWs cs with
    | [] => none
    | c :: rest =>
      if c = rbraceChar then some (.obj [], rest)
      else pMembers fuel (c :: rest) []

/-- Parse a non-empty comma-separated member list of a JSON object,
accumulating the fields already read. -/
def pMembers : Nat → List Char → List (String × Json) → Option (Json × List Char)
  | 0, _, _ => none
  | fuel + 1, cs, acc =>
    match skipWs cs with
    | [] => none
    | c :: rest =>
      if c = '"' then
        match pStringChars (rest.length + 1) rest with
        | some (k, r1) =>
          match skipWs r1 with
          | ':' :: r2 =>
            match pVal fuel r2 with
            | some (v, r3) =>
              match skipWs r3 with
              | ',' :: r4 => pMembers fuel r4 (acc ++ [(String.mk k, v)])
              | d :: r4 =>
                if d = rbraceChar then some (.obj (acc ++ [(String.mk k, v)]), r4)
                else none
              | [] => none
            | none => none
          | _ => none
        | none => none
      else none

/-- Parse the elements of a JSON array after its opening bracket. -/
def pArrBody : Nat → List Char → Option (Json × List Char)
  | 0, _ => none
  | fuel + 1, cs =>
    match skipWs cs with
    | [] => none
    | c :: rest =>
      if c = ']' then some (.arr [], rest)
      else pElems fuel (c :: rest) []

/-- Parse a non-empty comma-separated element list of a JSON array. -/
def pElems : Nat → List Char → List Json → Option (Json × List Char)
  | 0, _, _ => none
  | fuel + 1, cs, acc =>
    match pVal fuel cs with
    | some (v, r1) =>
      match skipWs r1 with
      | ',' :: r2 => pElems fuel r2 (acc ++ [v])
      | ']' :: r2 => some (.arr (acc ++ [v]), r2)
      | _ => none
    | none => none

end

/-- Model of JSON.parse: parse one JSON value and require only whitespace
after it; any failure is modelled as none (the thrown SyntaxError). -/
def jsonParse (s : String) : Option Json :=
  match pVal (s.length + 1) s.toList with
  | some (v, rest) => if (skipWs rest).isEmpty then some v else none
  | none => none

/-- Escaping of one character inside a JSON string literal as done by
JSON.stringify. -/
def jsonEscapeChar (c : Char) : String :=
  if c = '"' then "\\\""
  else if c = '\\' then "\\\\"
  else if c = '\n' then "\\n"
  else if c = '\t' then "\\t"
  else if c = '\r' then "\\r"
  else String.singleton c

/-- A JSON string literal for s, quotes included. -/
def jsonQuote (s : String) : String :=
  "\"" ++ String.join (s.toList.map jsonEscapeChar) ++ "\""

mutual

/-- Model of JSON.stringify on parsed JSON values: object fields keep
insertion order, no added whitespace. -/
def stringify : Json → String
  | .null => "null"
  | .bool b => cond b "true" "false"
  | .num n => toString n
  | .str s => jsonQuote s
  | .arr xs => "[" ++ stringifyElems xs ++ "]"
  | .obj fs => String.singleton lbraceChar ++ stringifyFields fs ++ String.singleton rbraceChar

/-- Comma-separated serialization of array elements. -/
def stringifyElems : List Json → String
  | [] => ""
  | [x] => stringify x
  | x :: xs => stringify x ++ "," ++ stringifyElems xs

/-- Comma-separated serialization of object fields. -/
def stringifyFields : List (String × Json) → String
  | [] => ""
  | [(k, v)] => jsonQuote k ++ ":" ++ stringify v
  | (k, v) :: fs => jsonQuote k ++ ":" ++ stringify v ++ "," ++ stringifyFields fs

end

example : jsonParse "not json" = none := by rfl
example : jsonParse "[0]" = some (.arr [.num 0]) := by rfl
example : jsonParse (stringify (.obj [("type", .str "ping")])) = some (.obj [("type", .str "ping")]) := by rfl

/-- Continuation byte test for UTF-8 decoding. -/
def isContByte (b : Nat) : Bool :=
  128 ≤ b ∧ b < 192

/-- Unicode replacement character. -/
def replChar : Char := Char.ofNat 0xFFFD

/-- Fuel-indexed UTF-8 decoder with replacement-character recovery,
modelling Buffer.toString with the utf8 encoding; the fuel starts at the
byte count and each step consumes at least one byte. -/
def utf8DecodeAux : Nat → List Nat → List Char
  | 0, _ => []
  | _ + 1, [] => []
  | fuel + 1, b :: rest =>
    if b < 128 then Char.ofNat b :: utf8DecodeAux fuel rest
    else if 192 ≤ b ∧ b < 224 then
      match rest with
      | b1 :: r =>
        if isContByte b1 then
          Char.ofNat ((b - 192) * 64 + (b1 - 128)) :: utf8DecodeAux fuel r
        else replChar :: utf8DecodeAux fuel rest
      | [] => [replChar]
    else if 224 ≤ b ∧ b < 240 then
      match rest with
      | b1 :: b2 :: r =>
        if isContByte b1 ∧ isContByte b2 then
          Char.ofNat ((b - 224) * 4096 + (b1 - 128) * 64 + (b2 - 128)) :: utf8DecodeAux fuel r
        else replChar :: utf8DecodeAux fuel rest
      | _ => [replChar]
    else if 240 ≤ b ∧ b < 248 then
      match rest with
      | b1 :: b2 :: b3 :: r =>
        if isContByte b1 ∧ isContByte b2 ∧ isContByte b3 then
          Char.ofNat ((b - 240) * 262144 + (b1 - 128) * 4096 + (b2 - 128) * 64 + (b3 - 128))
            :: utf8DecodeAux fuel r
        else replChar :: utf8DecodeAux fuel rest
      | _ => [replChar]
    else replChar :: utf8DecodeAux fuel rest

/-- UTF-8 decoding of a byte list to a string. -/
def utf8Decode (bs : List Nat) : String :=
  String.mk (utf8DecodeAux bs.length bs)

/-- A raw WebSocket frame as received by the message listener: a string, a
contiguous byte buffer, an ArrayBuffer, an array of byte chunks, or any
other value already coerced to its string rendering. -/
inductive RawFrame where
  | text : String → RawFrame
  | buffer : List Nat → RawFrame
  | arrayBuffer : List Nat → RawFrame
  | chunks : List (List Nat) → RawFrame
  | other : String → RawFrame

/-- The normalization prefix of parseMessage in AviaConnectorServer.ts:
strings pass through, buffers and ArrayBuffers are UTF-8 decoded, chunk
arrays are concatenated in arrival order before one UTF-8 decode, and any
other value is coerced by String(raw). -/
def normalizeFrame : RawFrame → String
  | .text s => s
  | .buffer bs => utf8Decode bs
  | .arrayBuffer bs => utf8Decode bs
  | .chunks ps => utf8Decode ps.flatten
  | .other s => s

/-- Test of the envelope guard in parseMessage: typeof obj.type equals the
string type tag. -/
def hasStringTypeProp (j : Json) : Bool :=
  match getProp j "type" with
  | some (.str _) => true
  | _ => false

/-- parseMessage of AviaConnectorServer.ts: normalize the frame to text,
attempt JSON.parse; on success return the parsed value itself when it is
truthy with a string type field, else wrap it as an unknown envelope; on
parse failure wrap the original text as an unknown envelope. Total: no
exception escapes. -/
def parseMessage (raw : RawFrame) : Json :=
  let text := normalizeFrame raw
  match jsonParse text with
  | some obj =>
    if jsTruthy obj && hasStringTypeProp obj then obj
    else Json.obj [("type", .str "unknown"), ("data", obj)]
  | none => Json.obj [("type", .str "unknown"), ("data", .str text)]

/-- The spec-side reading of the success guard of parseMessage: the parsed
value is an object carrying a string type field. Stated separately from
the source-side truthiness test so the two can be proved to agree. -/
def isObjectWithStringType (j : Json) : Bool :=
  match j with
  | .obj _ => hasStringTypeProp j
  | _ => false

/-- The simulatorStatus record of AviaConnectorServer, one field per field
of the SimulatorStatus interface; none models an undefined field, and a
field adopted from an inbound update holds whatever JSON value the update
carried. -/
structure SimulatorStatus where
  last_error : Option Json
  simulator_connected : Option Json
  simulator_loaded : Option Json
  simulator_name : Option Json

/-- The baseline simulatorStatus installed by the constructor: last_error
0, both booleans false, no simulator name. -/
def initialSimulatorStatus : SimulatorStatus :=
  { last_error := some (.num 0)
    simulator_connected := some (.bool false)
    simulator_loaded := some (.bool false)
    simulator_name := none }

/-- The field-wise merge performed inline by the Status branch of
handleMessage: each field takes data.field ?? previous.field with
JavaScript nullish coalescing. -/
def mergeSimulatorStatus (st : SimulatorStatus) (d : Json) : SimulatorStatus :=
  { last_error := jsCoalesce (getProp d "last_error") st.last_error
    simulator_connected := jsCoalesce (getProp d "simulator_connected") st.simulator_connected
    simulator_loaded := jsCoalesce (getProp d "simulator_loaded") st.simulator_loaded
    simulator_name := jsCoalesce (getProp d "simulator_name") st.simulator_name }

/-- Observable callback invocations and transport actions of the server,
recorded in program order. -/
inductive Effect where
  | aircraftDataCb : Json → Effect
  | simulatorStatusCb : SimulatorStatus → Effect
  | statusMessageCb : Json → Effect
  | pongCb : Json → Effect
  | errorCb : String → Effect
  | connectionCb : Effect
  | disconnectCb : Effect
  | closeClient : Nat → Nat → String → Effect

/-- Whether an effect is an invocation of the onStatusMessage callback. -/
def Effect.isStatusMessageCb : Effect → Bool
  | .statusMessageCb _ => true
  | _ => false

/-- The callback slots supplied in AviaConnectorServerOptions: which
optional callbacks the consumer provided, and, since consumer code may
throw, which invocations raise an exception (modelled by its message). -/
structure Callbacks where
  hasAircraftData : Bool
  hasSimulatorStatus : Bool
  hasStatusMessage : Bool
  hasPong : Bool
  hasError : Bool
  hasConnection : Bool
  hasDisconnect : Bool
  raises : Effect → Option String

/-- Optional-chaining invocation this.onX?.(payload): no effect when the
callback is absent; when present, the invocation is recorded and consumer
code may raise. -/
def invokeCb (cbs : Callbacks) (has : Bool) (e : Effect) : List Effect × Option String :=
  if has then ([e], cbs.raises e) else ([], none)

/-- handleMessage of AviaConnectorServer.ts as a function from the current
simulatorStatus and a decoded envelope to the new simulatorStatus, the
recorded effects, and the exception (if any) escaping handleMessage
itself. handleMessage contains no try/catch: an exception raised by an
invoked callback escapes to the caller of handleMessage. -/
def handleMessage (cbs : Callbacks) (st : SimulatorStatus) (m : Json) :
    SimulatorStatus × List Effect × Option String :=
  let data := getProp m "data"
  match getProp m "type" with
  | some (.str t) =>
    if t = "AircraftData" then
      match data with
      | some d =>
        if jsTruthy d then
          let aircraftData :=
            match getProp d "Aircraft" with
            | none => d
            | some .null => d
            | some v => v
          let r := invokeCb cbs cbs.hasAircraftData (.aircraftDataCb aircraftData)
          (st, r.1, r.2)
        else (st, [], none)
      | none => (st, [], none)
    else if t = "Status" then
      match data with
      | some d =>
        if jsTruthy d then
          let st2 := mergeSimulatorStatus st d
          let r := invokeCb cbs cbs.hasSimulatorStatus (.simulatorStatusCb st2)
          (st2, r.1, r.2)
        else (st, [], none)
      | none => (st, [], none)
    else if t = "pong" then
      match data with
      | some d =>
        if jsTruthy d then
          let r := invokeCb cbs cbs.hasPong (.pongCb d)
          (st, r.1, r.2)
        else (st, [], none)
      | none => (st, [], none)
    else if t = "Error" ∨ t = "error" then
      let errorMsg : String :=
        match data with
        | some (.str s) => s
        | none => "Unknown error"
        | some .null => "Unknown error"
        | some d =>
          match getProp d "message" with
          | none => "Unknown error"
          | some .null => "Unknown error"
          | some v => jsToString v
      let r := invokeCb cbs cbs.hasError (.errorCb errorMsg)
      (st, r.1, r.2)
    else (st, [], none)
  | _ => (st, [], none)

/-- The message listener installed in the constructor: parseMessage then
handleMessage inside a try/catch whose catch arm invokes the onError
callback with the caught exception. The final component carries the
exception still escaping to the transport caller, which can only come
from the onError callback itself raising. -/
def onMessageEvent (cbs : Callbacks) (st : SimulatorStatus) (raw : RawFrame) :
    SimulatorStatus × List Effect × Option String :=
  match handleMessage cbs st (parseMessage raw) with
  | (st2, effs, none) => (st2, effs, none)
  | (st2, effs, some e) =>
    let r := invokeCb cbs cbs.hasError (.errorCb e)
    (st2, effs ++ r.1, r.2)

/-- The connection-manager state: the private client field, holding the
handle of the attached peer or none. Handles are identified by numbers;
distinct live sockets are distinct handles. -/
structure ConnState where
  client : Option Nat
deriving DecidableEq

/-- The connection listener installed in the constructor: when a client is
already attached it is closed with code 1000 and reason New client
connected, then the new handle is adopted and the onConnection callback
fires. -/
def onConnectionEvent (cbs : Callbacks) (s : ConnState) (ws : Nat) : ConnState × List Effect :=
  let closeEffs : List Effect :=
    match s.client with
    | some old => [.closeClient old 1000 "New client connected"]
    | none => []
  let connEffs : List Effect := if cbs.hasConnection then [.connectionCb] else []
  ({ client := some ws }, closeEffs ++ connEffs)

/-- The per-socket close listener installed in the constructor: only when
the closing socket is still the current client is the field cleared and
the onDisconnect callback fired; a stale handle is ignored. -/
def onCloseEvent (cbs : Callbacks) (s : ConnState) (ws : Nat) : ConnState × List Effect :=
  if s.client = some ws then
    ({ client := none }, if cbs.hasDisconnect then [.disconnectCb] else [])
  else (s, [])

/-- The envelope built by requestAircraftData and passed to send. -/
def requestAircraftDataMessage : Json :=
  .obj [("type", .str "request"), ("data", .obj [("type", .str "AircraftData")])]

/-- The envelope built by requestSimulatorStatus and passed to send. -/
def requestSimulatorStatusMessage : Json :=
  .obj [("type", .str "Status"), ("data", .obj [])]

/-- The envelope built by ping and passed to send. -/
def pingMessage : Json :=
  .obj [("type", .str "ping")]

/-- The serialization step of send: a string passes through, any other
value goes through JSON.stringify. -/
def sendSerialize (d : Json) : String :=
  match d with
  | .str s => s
  | v => stringify v

/-- A concrete callback record with every slot supplied and no consumer
exception, used to instantiate general theorems. -/
def allCallbacksOn : Callbacks :=
  { hasAircraftData := true
    hasSimulatorStatus := true
    hasStatusMessage := true
    hasPong := true
    hasError := true
    hasConnection := true
    hasDisconnect := true
    raises := fun _ => none }

/-- C3: getStatusCodeCategory classifies purely by numeric range on the
parseInt result: each of the five categories is returned exactly on its
half-open band, none is returned exactly outside all five bands, and a
code whose parseInt yields NaN (non-numeric input) yields none. -/
theorem c3_category_is_numeric_banding (code : String) (n : Int) :
    (parseInt10 code = none → getStatusCodeCategory code = none) ∧
    (parseInt10 code = some n →
      ((getStatusCodeCategory code = some .success ↔ 200 ≤ n ∧ n < 300) ∧
       (getStatusCodeCategory code = some .clientError ↔ 400 ≤ n ∧ n < 500) ∧
       (getStatusCodeCategory code = some .serverError ↔ 500 ≤ n ∧ n < 600) ∧
       (getStatusCodeCategory code = some .simulator ↔ 600 ≤ n ∧ n < 700) ∧
       (getStatusCodeCategory code = some .custom ↔ 900 ≤ n ∧ n < 1000) ∧
       (getStatusCodeCategory code = none ↔
          n < 200 ∨ (300 ≤ n ∧ n < 400) ∨ (700 ≤ n ∧ n < 900) ∨ 1000 ≤ n))) := by
  constructor
  · intro h
    simp [getStatusCodeCategory, h]
  · intro h
    simp only [getStatusCodeCategory, h]
    split_ifs <;> simp_all <;> omega

/-- Closed instance of C3: the category of 650 is the simulator band, and
150, though numeric, lies outside all five bands. -/
theorem c3_witness :
    getStatusCodeCategory "650" = some .simulator ∧ getStatusCodeCategory "150" = none :=
  ⟨((c3_category_is_numeric_banding "650" 650).2 (by decide)).2.2.2.1.mpr (by decide),
   ((c3_category_is_numeric_banding "150" 150).2 (by decide)).2.2.2.2.2.mpr (by decide)⟩

/-- C8: every enumerated status code has a category, but category
membership does not imply being an enumerated code: 650 sits in the
simulator band while failing isValidStatusCode. -/
theorem c8_known_narrower_than_category :
    (∀ code : String, isValidStatusCode code = true →
       (getStatusCodeCategory code).isSome = true) ∧
    getStatusCodeCategory "650" = some .simulator ∧
    isValidStatusCode "650" = false := by
  refine ⟨?_, by decide, by decide⟩
  intro code h
  have hall : statusCodeValues.all (fun c => (getStatusCodeCategory c).isSome) = true := by decide
  have hm : code ∈ statusCodeValues := by
    exact List.mem_of_elem_eq_true (by simpa [isValidStatusCode, List.contains] using h)
  exact List.all_eq_true.mp hall code hm

/-- Closed instance of C8: 404 is an enumerated code and has a category. -/
theorem c8_witness :
    (getStatusCodeCategory "404").isSome = true :=
  c8_known_narrower_than_category.1 "404" (by decide)

/-- The source-side guard of parseMessage (truthy and string-typed) agrees
with the spec-side guard (an object carrying a string type field): parsed
non-objects never carry a type property, and objects are always truthy. -/
theorem guard_eq_isObjectWithStringType (j : Json) :
    (jsTruthy j && hasStringTypeProp j) = isObjectWithStringType j := by
  cases j <;> simp [jsTruthy, hasStringTypeProp, isObjectWithStringType, getProp]

/-- C2: parseMessage is total over every raw frame kind and follows the
three-case contract on the normalized text: a parsed object with a string
type field is returned as the envelope itself; a parsed value without one
is wrapped as an unknown envelope around the parsed value; a parse
failure is wrapped as an unknown envelope around the original text. -/
theorem c2_decode_total_three_cases (raw : RawFrame) (j : Json) :
    (jsonParse (normalizeFrame raw) = some j →
       parseMessage raw =
         (if isObjectWithStringType j then j
          else Json.obj [("type", .str "unknown"), ("data", j)])) ∧
    (jsonParse (normalizeFrame raw) = none →
       parseMessage raw =
         Json.obj [("type", .str "unknown"), ("data", .str (normalizeFrame raw))]) := by
  constructor
  · intro h
    simp [parseMessage, h, guard_eq_isObjectWithStringType]
  · intro h
    simp [parseMessage, h]

/-- Closed instances of C2: a parsed array wraps as unknown around the
parsed value, and a non-JSON text wraps as unknown around the text. -/
theorem c2_witness :
    parseMessage (.text "[0]") =
      Json.obj [("type", .str "unknown"), ("data", .arr [.num 0])] ∧
    parseMessage (.text "not json") =
      Json.obj [("type", .str "unknown"), ("data", .str "not json")] :=
  ⟨(c2_decode_total_three_cases (.text "[0]") (.arr [.num 0])).1 rfl,
   (c2_decode_total_three_cases (.text "not json") .null).2 rfl⟩

/-- C7: each outbound builder envelope survives a round trip through the
send serialization and the envelope codec: decoding the serialized text
returns the very same envelope, hence the original type and data. -/
theorem c7_builders_round_trip :
    parseMessage (.text (sendSerialize requestAircraftDataMessage)) =
      requestAircraftDataMessage ∧
    parseMessage (.text (sendSerialize requestSimulatorStatusMessage)) =
      requestSimulatorStatusMessage ∧
    parseMessage (.text (sendSerialize pingMessage)) = pingMessage :=
  ⟨rfl, rfl, rfl⟩

/-- Nullish coalescing adopts any defined non-null left operand. -/
theorem jsCoalesce_some_of_ne_null (v : Json) (b : Option Json) (hv : v ≠ .null) :
    jsCoalesce (some v) b = some v := by
  cases v <;> simp_all [jsCoalesce]

/-- C4: the simulator-status merge is field-wise: each of the four fields
adopts a defined non-null update value and is retained when the update
omits the field; consequently an empty partial update leaves the state
unchanged, and updating simulator_connected then simulator_name yields
both fields set, the second update not clobbering the first. -/
theorem c4_merge_is_fieldwise (st : SimulatorStatus) (d v : Json) :
    ((getProp d "last_error" = some v → v ≠ .null →
        (mergeSimulatorStatus st d).last_error = some v) ∧
     (getProp d "last_error" = none →
        (mergeSimulatorStatus st d).last_error = st.last_error)) ∧
    ((getProp d "simulator_connected" = some v → v ≠ .null →
        (mergeSimulatorStatus st d).simulator_connected = some v) ∧
     (getProp d "simulator_connected" = none →
        (mergeSimulatorStatus st d).simulator_connected = st.simulator_connected)) ∧
    ((getProp d "simulator_loaded" = some v → v ≠ .null →
        (mergeSimulatorStatus st d).simulator_loaded = some v) ∧
     (getProp d "simulator_loaded" = none →
        (mergeSimulatorStatus st d).simulator_loaded = st.simulator_loaded)) ∧
    ((getProp d "simulator_name" = some v → v ≠ .null →
        (mergeSimulatorStatus st d).simulator_name = some v) ∧
     (getProp d "simulator_name" = none →
        (mergeSimulatorStatus st d).simulator_name = st.simulator_name)) ∧
    mergeSimulatorStatus st (.obj []) = st ∧
    mergeSimulatorStatus
        (mergeSimulatorStatus st (.obj [("simulator_connected", .bool true)]))
        (.obj [("simulator_name", .str "MSFS")]) =
      { st with
          simulator_connected := some (.bool true)
          simulator_name := some (.str "MSFS") } := by
  refine ⟨⟨?_, ?_⟩, ⟨?_, ?_⟩, ⟨?_, ?_⟩, ⟨?_, ?_⟩, rfl, rfl⟩ <;> intro h
  all_goals
    first
    | (intro hv
       simp only [mergeSimulatorStatus, h]
       exact jsCoalesce_some_of_ne_null _ _ hv)
    | simp [mergeSimulatorStatus, h, jsCoalesce]

/-- Closed instance of C4: applying the connected update then the name
update to the baseline yields both fields set. -/
theorem c4_witness :
    (mergeSimulatorStatus initialSimulatorStatus
        (.obj [("simulator_connected", .bool true)])).simulator_connected =
      some (.bool true) :=
  ((c4_merge_is_fieldwise initialSimulatorStatus
      (.obj [("simulator_connected", .bool true)]) (.bool true)).2.1).1 rfl (by intro hk; cases hk)

/-- C10: in the simulator-status merge an explicit null update value is
treated like an absent field, retaining the previous value, while an
explicit false is adopted as the new value. -/
theorem c10_null_retains_false_adopts (st : SimulatorStatus) (d : Json) :
    (getProp d "last_error" = some .null →
       (mergeSimulatorStatus st d).last_error = st.last_error) ∧
    (getProp d "simulator_connected" = some .null →
       (mergeSimulatorStatus st d).simulator_connected = st.simulator_connected) ∧
    (getProp d "simulator_loaded" = some .null →
       (mergeSimulatorStatus st d).simulator_loaded = st.simulator_loaded) ∧
    (getProp d "simulator_name" = some .null →
       (mergeSimulatorStatus st d).simulator_name = st.simulator_name) ∧
    (getProp d "simulator_connected" = some (.bool false) →
       (mergeSimulatorStatus st d).simulator_connected = some (.bool false)) ∧
    (getProp d "simulator_loaded" = some (.bool false) →
       (mergeSimulatorStatus st d).simulator_loaded = some (.bool false)) := by
  refine ⟨?_, ?_, ?_, ?_, ?_, ?_⟩ <;> intro h <;> simp [mergeSimulatorStatus, h, jsCoalesce]

/-- Closed instance of C10: a Status update carrying a null connected flag
and an explicit false loaded flag retains the previous connected value
and adopts false for loaded. -/
theorem c10_witness :
    (mergeSimulatorStatus initialSimulatorStatus
        (.obj [("simulator_connected", .null), ("simulator_loaded", .bool false)])).simulator_connected =
      initialSimulatorStatus.simulator_connected ∧
    (mergeSimulatorStatus initialSimulatorStatus
        (.obj [("simulator_connected", .null), ("simulator_loaded", .bool false)])).simulator_loaded =
      some (.bool false) :=
  ⟨(c10_null_retains_false_adopts initialSimulatorStatus
      (.obj [("simulator_connected", .null), ("simulator_loaded", .bool false)])).2.1 rfl,
   (c10_null_retains_false_adopts initialSimulatorStatus
      (.obj [("simulator_connected", .null), ("simulator_loaded", .bool false)])).2.2.2.2.2 rfl⟩

/-- C6: an envelope whose type is none of AircraftData, Status, pong,
Error, error is silently ignored by the dispatch engine: no callback
effect is recorded (in particular no error callback), the simulator
status is unchanged, and no exception is raised. An envelope without a
string type field is likewise ignored. -/
theorem c6_unknown_types_ignored (cbs : Callbacks) (st : SimulatorStatus) (m : Json)
    (h : ∀ t : String, getProp m "type" = some (.str t) →
       t ≠ "AircraftData" ∧ t ≠ "Status" ∧ t ≠ "pong" ∧ t ≠ "Error" ∧ t ≠ "error") :
    handleMessage cbs st m = (st, [], none) := by
  unfold handleMessage
  cases hty : getProp m "type" with
  | none => rfl
  | some v =>
    cases v with
    | str t =>
      obtain ⟨h1, h2, h3, h4, h5⟩ := h t hty
      simp [h1, h2, h3, h4, h5]
    | null => rfl
    | bool b => rfl
    | num n => rfl
    | arr xs => rfl
    | obj fs => rfl

/-- Closed instance of C6: the frame not json decodes to an unknown
envelope and dispatch, with every callback supplied, fires none of them
and leaves the baseline status unchanged. -/
theorem c6_witness :
    handleMessage allCallbacksOn initialSimulatorStatus (parseMessage (.text "not json")) =
      (initialSimulatorStatus, [], none) := by
  apply c6_unknown_types_ignored
  intro t ht
  rw [show getProp (parseMessage (.text "not json")) "type" = some (.str "unknown") from rfl]
    at ht
  injection ht with h1
  injection h1 with h2
  subst h2
  refine ⟨by decide, by decide, by decide, by decide, by decide⟩

/-- Every effect recorded by an optional-chaining invocation is the
invoked effect itself. -/
theorem invokeCb_fst_all (cbs : Callbacks) (has : Bool) (e : Effect) (p : Effect → Bool)
    (hp : p e = true) : ((invokeCb cbs has e).1.all p) = true := by
  cases has <;> simp [invokeCb, hp]

/-- The dispatch engine records no onStatusMessage invocation on any
envelope. -/
theorem handleMessage_no_statusMessageCb (cbs : Callbacks) (st : SimulatorStatus) (m : Json) :
    ((handleMessage cbs st m).2.1.all fun e => ! e.isStatusMessageCb) = true := by
  unfold handleMessage
  cases getProp m "type" with
  | none => rfl
  | some v =>
    cases v <;> try rfl
    case str t =>
      by_cases h1 : t = "AircraftData"
      · simp only [h1, if_true]
        cases getProp m "data" with
        | none => rfl
        | some d =>
          by_cases hd : jsTruthy d = true
          · simp only [hd, if_true]
            exact invokeCb_fst_all _ _ _ _ rfl
          · simp only [Bool.not_eq_true] at hd
            simp [hd]
      · by_cases h2 : t = "Status"
        · simp only [h1, if_false, h2, if_true]
          cases getProp m "data" with
          | none => rfl
          | some d =>
            by_cases hd : jsTruthy d = true
            · simp only [hd, if_true]
              exact invokeCb_fst_all _ _ _ _ rfl
            · simp only [Bool.not_eq_true] at hd
              simp [hd]
        · by_cases h3 : t = "pong"
          · simp only [h1, h2, if_false, h3, if_true]
            cases getProp m "data" with
            | none => rfl
            | some d =>
              by_cases hd : jsTruthy d = true
              · simp only [hd, if_true]
                exact invokeCb_fst_all _ _ _ _ rfl
              · simp only [Bool.not_eq_true] at hd
                simp [hd]
          · by_cases h4 : t = "Error" ∨ t = "error"
            · simp only [h1, h2, h3, if_false, h4, if_true]
              exact invokeCb_fst_all _ _ _ _ rfl
            · simp [h1, h2, h3, h4]

/-- C9: the onStatusMessage callback slot accepted by the server options
is never invoked on any code path: no message event, connection event or
close event ever records an invocation of it. -/
theorem c9_onStatusMessage_never_invoked (cbs : Callbacks) (st : SimulatorStatus)
    (raw : RawFrame) (cs : ConnState) (ws : Nat) :
    ((onMessageEvent cbs st raw).2.1.all fun e => ! e.isStatusMessageCb) = true ∧
    ((onConnectionEvent cbs cs ws).2.all fun e => ! e.isStatusMessageCb) = true ∧
    ((onCloseEvent cbs cs ws).2.all fun e => ! e.isStatusMessageCb) = true := by
  refine ⟨?_, ?_, ?_⟩
  · unfold onMessageEvent
    cases hm : handleMessage cbs st (parseMessage raw) with
    | mk st2 rest =>
      cases rest with
      | mk effs th =>
        have hall : (effs.all fun e => ! e.isStatusMessageCb) = true := by
          have h0 := handleMessage_no_statusMessageCb cbs st (parseMessage raw)
          rw [hm] at h0
          exact h0
        cases th with
        | none => simpa using hall
        | some e =>
          simp only [List.all_append, Bool.and_eq_true]
          exact ⟨hall, invokeCb_fst_all _ _ _ _ rfl⟩
  · cases hc : cs.client <;>
      cases hh : cbs.hasConnection <;>
        simp [onConnectionEvent, hc, hh, Effect.isStatusMessageCb]
  · by_cases hc : cs.client = some ws <;>
      cases hh : cbs.hasDisconnect <;>
        simp [onCloseEvent, hc, hh, Effect.isStatusMessageCb]

/-- A callback record whose aircraft-data callback raises, with an error
callback that does not raise; used to probe exception propagation. -/
def cbsBoom : Callbacks :=
  { hasAircraftData := true
    hasSimulatorStatus := true
    hasStatusMessage := true
    hasPong := true
    hasError := true
    hasConnection := true
    hasDisconnect := true
    raises := fun e =>
      match e with
      | .aircraftDataCb _ => some "boom"
      | _ => none }

/-- An AircraftData frame whose dispatch invokes the aircraft-data
callback. -/
def boomFrame : RawFrame :=
  .text (stringify (.obj [("type", .str "AircraftData"), ("data", .num 1)]))

/-- C5 counterexample: with an aircraft-data callback that raises, the
exception does escape handleMessage, but the message-handling path does
not let it propagate to the caller: the try/catch in the message listener
absorbs it and converts it into an error-callback invocation, so the
message event completes with no escaping exception. -/
theorem c5_counterexample :
    (handleMessage cbsBoom initialSimulatorStatus (parseMessage boomFrame)).2.2 =
      some "boom" ∧
    (onMessageEvent cbsBoom initialSimulatorStatus boomFrame).2.2 = none ∧
    onMessageEvent cbsBoom initialSimulatorStatus boomFrame =
      (initialSimulatorStatus, [.aircraftDataCb (.num 1), .errorCb "boom"], none) :=
  ⟨rfl, rfl, rfl⟩

/-- C5 as amended: an exception raised by a dispatched callback is not
caught inside the dispatch engine (it escapes handleMessage), but the
message listener wraps dispatch in a try/catch that absorbs it and
converts it into an invocation of the error callback; when the error
callback itself does not raise, nothing propagates to the transport
caller. -/
theorem c5_callback_exception_converted (cbs : Callbacks) (st st2 : SimulatorStatus)
    (raw : RawFrame) (effs : List Effect) (e : String)
    (hdisp : handleMessage cbs st (parseMessage raw) = (st2, effs, some e))
    (herr : cbs.raises (.errorCb e) = none) :
    onMessageEvent cbs st raw =
      (st2, effs ++ (if cbs.hasError then [Effect.errorCb e] else []), none) := by
  unfold onMessageEvent
  rw [hdisp]
  cases hh : cbs.hasError <;> simp [invokeCb, hh, herr]

/-- Closed instance of the amended C5: the raising aircraft-data callback
leads to an error-callback invocation and a completed message event. -/
theorem c5_witness :
    onMessageEvent cbsBoom initialSimulatorStatus boomFrame =
      (initialSimulatorStatus,
       [Effect.aircraftDataCb (.num 1)] ++
         (if cbsBoom.hasError then [Effect.errorCb "boom"] else []),
       none) :=
  c5_callback_exception_converted cbsBoom initialSimulatorStatus initialSimulatorStatus
    boomFrame [Effect.aircraftDataCb (.num 1)] "boom" rfl rfl

/-- C1: the connection manager holds at most one live peer: when a
connection arrives while a peer is attached, the prior peer is closed
with code 1000 and reason New client connected before the new handle is
adopted and the connection notification fires exactly once; when no peer
is attached, adoption fires the notification alone; and a close event for
a handle that is not the current one leaves the state unchanged and fires
no disconnect notification. -/
theorem c1_single_occupancy (cbs : Callbacks) (s : ConnState) (ws old : Nat) :
    (s.client = some old →
       onConnectionEvent cbs s ws =
         ({ client := some ws },
          Effect.closeClient old 1000 "New client connected" ::
            (if cbs.hasConnection then [Effect.connectionCb] else []))) ∧
    (s.client = none →
       onConnectionEvent cbs s ws =
         ({ client := some ws }, if cbs.hasConnection then [Effect.connectionCb] else [])) ∧
    (s.client ≠ some ws → onCloseEvent cbs s ws = (s, [])) := by
  refine ⟨?_, ?_, ?_⟩ <;> intro h
  · simp [onConnectionEvent, h]
  · simp [onConnectionEvent, h]
  · simp [onCloseEvent, h]

/-- Closed instance of C1: peer 2 arriving while peer 1 is attached closes
peer 1 with code 1000 and the documented reason before the connection
notification, and a stale close for peer 1 afterwards changes nothing. -/
theorem c1_witness :
    onConnectionEvent allCallbacksOn { client := some 1 } 2 =
      ({ client := some 2 },
       [Effect.closeClient 1 1000 "New client connected", Effect.connectionCb]) ∧
    onCloseEvent allCallbacksOn { client := some 2 } 1 = ({ client := some 2 }, []) :=
  ⟨(c1_single_occupancy allCallbacksOn { client := some 1 } 2 1).1 rfl,
   (c1_single_occupancy allCallbacksOn { client := some 2 } 1 0).2.2 (by decide)⟩
